import Mathlib

/-!
Shallow embedding of the tus.io-style resumable-upload server
(main.go: constants, the File record, the chunked append writer,
metadata validation, and the four HTTP handlers built by buildServeMux).

Modelling conventions:
* Go strings are modelled as Lean strings or rune lists (List Char);
  byte positions are recovered through Char.utf8Size where the source
  iterates over byte indices.
* Go int is modelled as Int (the claims never exercise 64-bit overflow,
  so strconv.Atoi is modelled without its range check).
* The request body stream is a list of read events: a successful read of
  one chunk (carrying a flag telling whether the subsequent file write
  succeeds) or a read error.  A failed file write is modelled as writing
  nothing.  Opening the backing file is assumed to succeed (a failed open
  returns early with no mutation, which no claim distinguishes).
* A ResponseWriter is modelled wire-visibly: header writes after the
  status has been committed have no effect on the response, and only the
  first WriteHeader sets the status, matching net/http semantics.
-/

namespace Tus

def MAX_SIZE : Int := 1024 * 1024 * 1024

def CHUNK_SIZE : Nat := 1024 * 1024

def TUS_PROTOCOL_VERSION : String := "1.0.0"

def CONTENT_TYPE_OFFSET_OCTET_STREAM : String := "application/offset+octet-stream"

def HEADER_TUS_RESUMABLE : String := "Tus-Resumable"

def HEADER_TUS_VERSION : String := "Tus-Version"

def HEADER_TUS_EXTENSION : String := "Tus-Extension"

def HEADER_TUS_MAX_SIZE : String := "Tus-Max-Size"

def HEADER_LOCATION : String := "Location"

def HEADER_UPLOAD_LENGTH : String := "Upload-Length"

def HEADER_UPLOAD_OFFSET : String := "Upload-Offset"

def HEADER_UPLOAD_METADATA : String := "Upload-Metadata"

/-- The per-upload session record (type File in the source).  The backing
store's bytes live in the server state's file system map, keyed by id. -/
structure File where
  id : String
  size : Int
  offset : Int
  metadata : String
deriving DecidableEq, Repr

/-- One event observed by the chunked writer's read loop: a successfully
read chunk (with the fate of the following file write) or a read error. -/
inductive ReadEvent where
  | chunk (data : List Nat) (writeOk : Bool)
  | readErr
deriving DecidableEq, Repr

inductive WriteError where
  | readFailure
  | writeFailure
deriving DecidableEq, Repr

/-- File.writeToFile: write one chunk to the backing store; on success the
offset advances by the chunk's length (source lines 127-133). -/
def File.writeToFile (f : File) (store : List Nat) (buff : List Nat) (ok : Bool) :
    (File × List Nat) × Option WriteError :=
  if ok then (({ f with offset := f.offset + buff.length }, store ++ buff), none)
  else ((f, store), some WriteError.writeFailure)

/-- File.write: the chunked read/append loop (source lines 89-125).  The
stream ends successfully when the event list is exhausted (the final EOF
read writes an empty chunk, a no-op); a non-EOF read error aborts with no
further mutation; a failed chunk write aborts after the chunks already
flushed. -/
def File.write (f : File) (store : List Nat) :
    List ReadEvent → (File × List Nat) × Option WriteError
  | [] => ((f, store), none)
  | ReadEvent.readErr :: _ => ((f, store), some WriteError.readFailure)
  | ReadEvent.chunk d ok :: rest =>
    match File.writeToFile f store d ok with
    | ((f2, st2), none) => File.write f2 st2 rest
    | (p, some e) => (p, some e)

/-- Full payload carried by a body stream: the concatenation of its chunks. -/
def bodyBytes : List ReadEvent → List Nat
  | [] => []
  | ReadEvent.chunk d _ :: rest => d ++ bodyBytes rest
  | ReadEvent.readErr :: rest => bodyBytes rest

/-- A body stream that suffers no read error and no write failure. -/
def cleanBody (evs : List ReadEvent) : Bool :=
  evs.all fun e =>
    match e with
    | ReadEvent.chunk _ ok => ok
    | ReadEvent.readErr => false

/-- Unicode White_Space predicate (Go unicode.IsSpace), used by
strings.TrimSpace. -/
def goIsSpace (c : Char) : Bool :=
  decide (c.toNat = 0x09 ∨ c.toNat = 0x0A ∨ c.toNat = 0x0B ∨ c.toNat = 0x0C ∨
    c.toNat = 0x0D ∨ c.toNat = 0x20 ∨ c.toNat = 0x85 ∨ c.toNat = 0xA0 ∨
    c.toNat = 0x1680 ∨ (0x2000 ≤ c.toNat ∧ c.toNat ≤ 0x200A) ∨
    c.toNat = 0x2028 ∨ c.toNat = 0x2029 ∨ c.toNat = 0x202F ∨
    c.toNat = 0x205F ∨ c.toNat = 0x3000)

/-- Go strings.TrimSpace on a rune list. -/
def trimSpace (l : List Char) : List Char :=
  ((l.dropWhile goIsSpace).reverse.dropWhile goIsSpace).reverse

/-- Go strings.Split(s, comma): a comma is a single-byte rune, so splitting
the rune list on the comma character is byte-faithful. -/
def splitOnComma : List Char → List (List Char)
  | [] => [[]]
  | ',' :: rest => [] :: splitOnComma rest
  | c :: rest =>
    match splitOnComma rest with
    | [] => [[c]]
    | p :: ps => (c :: p) :: ps

/-- Go strings.SplitN(s, space, 2): the part before the first space and
everything after it. -/
def splitN2 (l : List Char) : List Char × List Char :=
  (l.takeWhile (fun c => c ≠ ' '), (l.dropWhile (fun c => c ≠ ' ')).drop 1)

/-- Standard base64 alphabet character. -/
def isBase64Char (c : Char) : Bool :=
  decide (('A' ≤ c ∧ c ≤ 'Z') ∨ ('a' ≤ c ∧ c ≤ 'z') ∨ ('0' ≤ c ∧ c ≤ '9') ∨
    c = '+' ∨ c = '/')

/-- Quantum-of-four structure of padded standard base64: any number of full
alphabet quantums, the last one allowed one or two padding characters. -/
def base64Groups : List Char → Bool
  | [] => true
  | [a, b, c, d] =>
    isBase64Char a && isBase64Char b &&
      ((isBase64Char c && isBase64Char d) ||
       (isBase64Char c && d == '=') ||
       (c == '=' && d == '='))
  | a :: b :: c :: d :: rest =>
    isBase64Char a && isBase64Char b && isBase64Char c && isBase64Char d &&
      base64Groups rest
  | _ => false

/-- Syntactic validity for Go base64.StdEncoding.DecodeString: carriage
returns and newlines are ignored, the rest must be full quantums with
padding only at the end.  (StdEncoding is not strict, so non-zero trailing
bits are accepted; only syntax matters.) -/
def isValidStdBase64 (v : List Char) : Bool :=
  base64Groups (v.filter fun c => decide (c ≠ '\x0d' ∧ c ≠ '\n'))

/-- The key check loop of validateMetadata, exactly as the source writes
it: a one-variable range over a Go string yields the BYTE index of each
rune, so the comparison against unicode.MaxASCII (127) is applied to the
rune's starting byte position, not to the rune itself (source lines
310-314).  Returns the first offending index. -/
def keyIndexCheck : List Char → Nat → Option Nat
  | [], _ => none
  | c :: rest, i => if i > 127 then some i else keyIndexCheck rest (i + c.utf8Size)

inductive MetaError where
  | base64Error
  | nonAsciiKey (idx : Nat)
deriving DecidableEq, Repr

/-- One iteration of validateMetadata's loop over comma-separated pairs. -/
def validatePair (pair0 : List Char) : Option MetaError :=
  let pair := trimSpace pair0
  let kv : List Char × List Char :=
    if pair.any (fun c => c == ' ') then
      (trimSpace (splitN2 pair).1, trimSpace (splitN2 pair).2)
    else (pair, [])
  if kv.2 ≠ [] ∧ ¬ isValidStdBase64 kv.2 then some MetaError.base64Error
  else (keyIndexCheck kv.1 0).map MetaError.nonAsciiKey

def firstError : List (List Char) → Option MetaError
  | [] => none
  | p :: rest =>
    match validatePair p with
    | some e => some e
    | none => firstError rest

/-- validateMetadata (source lines 288-318): splits on commas, checks each
present value for base64 syntax, and runs the (index-based) key check. -/
def validateMetadata (metadata : String) : Option MetaError :=
  firstError (splitOnComma metadata.data)

/-- Go strconv.Atoi, base-10 fast path: optional sign followed by at least
one decimal digit (the int64 range check is not modelled; no claim
exercises it). -/
def decDigits (l : List Char) : Bool :=
  decide (l ≠ []) && l.all Char.isDigit

def digitsToNat (l : List Char) : Nat :=
  l.foldl (fun acc c => acc * 10 + (c.toNat - 48)) 0

def atoi (s : String) : Option Int :=
  match s.data with
  | [] => none
  | '+' :: rest => if decDigits rest then some (Int.ofNat (digitsToNat rest)) else none
  | '-' :: rest => if decDigits rest then some (-(Int.ofNat (digitsToNat rest))) else none
  | l => if decDigits l then some (Int.ofNat (digitsToNat l)) else none

/-- Go strconv.Itoa. -/
def itoa (i : Int) : String := toString i

/-- The wire-visible response: the committed status code and the headers
sent with it. -/
structure Response where
  status : Nat
  headers : List (String × String)
deriving DecidableEq, Repr

/-- Model of http.ResponseWriter: a header map plus the committed status.
Header mutations after WriteHeader have no effect on the wire, and only
the first WriteHeader counts, as in net/http. -/
structure RespW where
  hdrs : List (String × String)
  committed : Option Nat
deriving DecidableEq, Repr

def RespW.empty : RespW := { hdrs := [], committed := none }

/-- Header().Set on the underlying map: replace the key's value or append. -/
def setHeader (hs : List (String × String)) (k v : String) : List (String × String) :=
  if hs.any (fun p => p.1 == k) then
    hs.map fun p => if p.1 == k then (k, v) else p
  else hs ++ [(k, v)]

def RespW.set (w : RespW) (k v : String) : RespW :=
  match w.committed with
  | some _ => w
  | none => { w with hdrs := setHeader w.hdrs k v }

def RespW.writeHeader (w : RespW) (c : Nat) : RespW :=
  match w.committed with
  | some _ => w
  | none => { w with committed := some c }

/-- WriteHeader defaults to 200 when the handler returns without
committing (never happens in these handlers, every exit commits). -/
def RespW.response (w : RespW) : Response :=
  { status := w.committed.getD 200, headers := w.hdrs }

/-- The registry (map[string]*File in the source) as an association list. -/
def lookupA {A : Type} : List (String × A) → String → Option A
  | [], _ => none
  | p :: rest, k => if p.1 = k then some p.2 else lookupA rest k

def insertA {A : Type} (m : List (String × A)) (k : String) (v : A) :
    List (String × A) :=
  (k, v) :: m.filter fun p => decide (p.1 ≠ k)

/-- Server-side mutable state: the registry plus the upload directory's
per-id file contents. -/
structure ServerState where
  storage : List (String × File)
  fs : List (String × List Nat)
deriving DecidableEq, Repr

/-- Bytes currently held by the backing store of one session (missing file
reads as empty, matching O_CREATE on open). -/
def fsOf (st : ServerState) (fid : String) : List Nat :=
  (lookupA st.fs fid).getD []

structure Config where
  protocol : String
  host : String
  port : Int
deriving DecidableEq, Repr

def locationOf (cfg : Config) (id : String) : String :=
  cfg.protocol ++ "://" ++ cfg.host ++ ":" ++ itoa cfg.port ++ "/files/" ++ id

/-- Inputs of POST /files; an absent header is the empty string. -/
structure PostRequest where
  uploadLength : String
  metadata : String
deriving DecidableEq, Repr

/-- The POST /files handler (source lines 176-226).  An absent
Upload-Length defaults to the string "0"; a malformed one logs and writes
status 411 but does NOT return, so the handler continues with l = 0
(strconv.Atoi returns 0 alongside a syntax error).  Every later header
write is then wire-invisible because the status is already committed.
Identifier generation and backing-store creation are fallible
collaborators, passed here as the oracles uuidOk and createOk. -/
def postFiles (cfg : Config) (st : ServerState) (req : PostRequest)
    (newId : String) (uuidOk createOk : Bool) : ServerState × Response :=
  let w := RespW.empty
  let uploadLength := if req.uploadLength.length ≤ 0 then "0" else req.uploadLength
  let l : Int := (atoi uploadLength).getD 0
  let w := if (atoi uploadLength).isNone then w.writeHeader 411 else w
  if l > MAX_SIZE then
    let w := (w.set HEADER_TUS_MAX_SIZE (itoa MAX_SIZE)).set HEADER_TUS_RESUMABLE TUS_PROTOCOL_VERSION
    (st, (w.writeHeader 413).response)
  else
    match validateMetadata req.metadata with
    | some _ =>
      let w := (w.set HEADER_TUS_MAX_SIZE (itoa MAX_SIZE)).set HEADER_TUS_RESUMABLE TUS_PROTOCOL_VERSION
      (st, (w.writeHeader 400).response)
    | none =>
      if uuidOk then
        if createOk then
          let f : File := { id := newId, size := l, offset := 0, metadata := req.metadata }
          let st2 : ServerState :=
            { storage := insertA st.storage newId f, fs := insertA st.fs newId [] }
          let w := (w.set HEADER_LOCATION (locationOf cfg newId)).set HEADER_TUS_RESUMABLE TUS_PROTOCOL_VERSION
          (st2, (w.writeHeader 201).response)
        else
          let w := (w.set HEADER_TUS_MAX_SIZE (itoa MAX_SIZE)).set HEADER_TUS_RESUMABLE TUS_PROTOCOL_VERSION
          (st, (w.writeHeader 500).response)
      else
        let w := (w.set HEADER_TUS_MAX_SIZE (itoa MAX_SIZE)).set HEADER_TUS_RESUMABLE TUS_PROTOCOL_VERSION
        (st, (w.writeHeader 500).response)

/-- The HEAD /files/id handler (source lines 229-240). -/
def headFiles (st : ServerState) (fileId : String) : Response :=
  match lookupA st.storage fileId with
  | none => (RespW.empty.writeHeader 404).response
  | some file =>
    let w := ((RespW.empty.set HEADER_TUS_RESUMABLE TUS_PROTOCOL_VERSION).set
      HEADER_UPLOAD_OFFSET (itoa file.offset)).set HEADER_UPLOAD_METADATA file.metadata
    (w.writeHeader 200).response

/-- Inputs of PATCH /files/id; an absent Upload-Offset is the empty
string. -/
structure PatchRequest where
  contentType : String
  uploadOffset : String
  body : List ReadEvent
deriving DecidableEq, Repr

/-- The PATCH /files/id handler (source lines 243-283).  The File record
is held by pointer in the registry, so its partially advanced offset and
the partially appended store survive a mid-stream failure. -/
def patchFiles (st : ServerState) (fileId : String) (req : PatchRequest) :
    ServerState × Response :=
  let w := RespW.empty.set HEADER_TUS_RESUMABLE TUS_PROTOCOL_VERSION
  if req.contentType ≠ CONTENT_TYPE_OFFSET_OCTET_STREAM then
    (st, (w.writeHeader 415).response)
  else
    match lookupA st.storage fileId with
    | none => (st, (w.writeHeader 404).response)
    | some file =>
      let offsetValue := if req.uploadOffset.length ≤ 0 then "0" else req.uploadOffset
      match atoi offsetValue with
      | none => (st, (w.writeHeader 400).response)
      | some offset =>
        if offset ≠ file.offset then
          (st, (w.writeHeader 409).response)
        else
          match File.write file (fsOf st fileId) req.body with
          | ((f2, st2), some _) =>
            ({ storage := insertA st.storage fileId f2, fs := insertA st.fs fileId st2 },
             (w.writeHeader 500).response)
          | ((f2, st2), none) =>
            ({ storage := insertA st.storage fileId f2, fs := insertA st.fs fileId st2 },
             ((w.set HEADER_UPLOAD_OFFSET (itoa f2.offset)).writeHeader 204).response)

/-- The OPTIONS /files handler (source lines 167-173). -/
def optionsFiles : Response :=
  let w := (((RespW.empty.set HEADER_TUS_RESUMABLE TUS_PROTOCOL_VERSION).set
    HEADER_TUS_VERSION TUS_PROTOCOL_VERSION).set
    HEADER_TUS_EXTENSION "creation").set HEADER_TUS_MAX_SIZE (itoa MAX_SIZE)
  (w.writeHeader 204).response

/-- Run a sequence of append calls against one session. -/
def runPatches (st : ServerState) (fid : String) : List PatchRequest → ServerState
  | [] => st
  | r :: rs => runPatches (patchFiles st fid r).1 fid rs

/-- Concatenation, in application order, of the payloads of exactly those
appends in the sequence that completed successfully (status 204). -/
def appendedBytes (st : ServerState) (fid : String) : List PatchRequest → List Nat
  | [] => []
  | r :: rs =>
    (if (patchFiles st fid r).2.status = 204 then bodyBytes r.body else []) ++
      appendedBytes (patchFiles st fid r).1 fid rs

/-- A response carries a given header key/value pair. -/
def hasHeader (r : Response) (k v : String) : Bool :=
  r.headers.any fun p => p.1 == k && p.2 == v

theorem lookupA_insertA_self {A : Type} (m : List (String × A)) (k : String) (v : A) :
    lookupA (insertA m k v) k = some v := by
  simp [insertA, lookupA]

theorem write_clean (evs : List ReadEvent) : ∀ (f : File) (store : List Nat),
    cleanBody evs = true →
    File.write f store evs =
      (({ f with offset := f.offset + ((bodyBytes evs).length : Int) },
        store ++ bodyBytes evs), none) := by
  induction evs with
  | nil =>
    intro f store _
    simp [File.write, bodyBytes]
  | cons e rest ih =>
    intro f store hclean
    cases e with
    | readErr => simp [cleanBody] at hclean
    | chunk d ok =>
      simp only [cleanBody, List.all_cons, Bool.and_eq_true] at hclean
      obtain ⟨hok, hrest⟩ := hclean
      subst hok
      rw [File.write]
      simp only [File.writeToFile, eq_self_iff_true, if_true]
      rw [ih _ _ hrest]
      simp [bodyBytes, List.append_assoc, add_assoc]

theorem write_shape (evs : List ReadEvent) : ∀ (f : File) (store : List Nat),
    ∃ app : List Nat,
      (File.write f store evs).1.2 = store ++ app ∧
      (File.write f store evs).1.1.offset = f.offset + (app.length : Int) := by
  induction evs with
  | nil =>
    intro f store
    exact ⟨[], by simp [File.write]⟩
  | cons e rest ih =>
    intro f store
    cases e with
    | readErr => exact ⟨[], by simp [File.write]⟩
    | chunk d ok =>
      cases ok with
      | false => exact ⟨[], by simp [File.write, File.writeToFile]⟩
      | true =>
        obtain ⟨app, h1, h2⟩ := ih { f with offset := f.offset + (d.length : Int) } (store ++ d)
        refine ⟨d ++ app, ?_, ?_⟩
        · rw [File.write]
          simp only [File.writeToFile, eq_self_iff_true, if_true]
          rw [h1, List.append_assoc]
        · rw [File.write]
          simp only [File.writeToFile, eq_self_iff_true, if_true]
          rw [h2]
          simp [add_assoc]

theorem any_setHeader_self (hs : List (String × String)) (k v : String) :
    (setHeader hs k v).any (fun p => p.1 == k && p.2 == v) = true := by
  unfold setHeader
  by_cases h : hs.any (fun p => p.1 == k) = true
  · rw [if_pos h]
    obtain ⟨p, hp, hpk⟩ := List.any_eq_true.mp h
    refine List.any_eq_true.mpr ⟨(k, v), List.mem_map.mpr ⟨p, hp, ?_⟩, by simp⟩
    simp [hpk]
  · rw [if_neg h]
    simp

theorem patch_hasTus (st : ServerState) (fid : String) (req : PatchRequest) :
    hasHeader (patchFiles st fid req).2 HEADER_TUS_RESUMABLE TUS_PROTOCOL_VERSION = true := by
  have hne : (HEADER_TUS_RESUMABLE == HEADER_UPLOAD_OFFSET) = false := by decide
  simp only [patchFiles]
  split
  · simp [hasHeader, RespW.empty, RespW.set, RespW.writeHeader, RespW.response, setHeader]
  · split
    · simp [hasHeader, RespW.empty, RespW.set, RespW.writeHeader, RespW.response, setHeader]
    · split
      · simp [hasHeader, RespW.empty, RespW.set, RespW.writeHeader, RespW.response, setHeader]
      · split
        · simp [hasHeader, RespW.empty, RespW.set, RespW.writeHeader, RespW.response, setHeader]
        · split
          · simp [hasHeader, RespW.empty, RespW.set, RespW.writeHeader, RespW.response, setHeader]
          · simp [hasHeader, RespW.empty, RespW.set, RespW.writeHeader, RespW.response,
              setHeader, hne]

theorem head_hasTus (st : ServerState) (fid : String) (file : File)
    (h : lookupA st.storage fid = some file) :
    hasHeader (headFiles st fid) HEADER_TUS_RESUMABLE TUS_PROTOCOL_VERSION = true := by
  have h1 : HEADER_TUS_RESUMABLE ≠ HEADER_UPLOAD_OFFSET := by decide
  have h2 : HEADER_TUS_RESUMABLE ≠ HEADER_UPLOAD_METADATA := by decide
  have h3 : HEADER_UPLOAD_OFFSET ≠ HEADER_UPLOAD_METADATA := by decide
  simp [headFiles, h, hasHeader, RespW.empty, RespW.set, RespW.writeHeader, RespW.response,
    setHeader, h1, h2, h3]

theorem post_hasTus (cfg : Config) (st : ServerState) (req : PostRequest)
    (newId : String) (uuidOk createOk : Bool)
    (hpost : (atoi (if req.uploadLength.length ≤ 0 then "0" else req.uploadLength)).isSome
      = true) :
    hasHeader (postFiles cfg st req newId uuidOk createOk).2
      HEADER_TUS_RESUMABLE TUS_PROTOCOL_VERSION = true := by
  rcases hx : atoi (if req.uploadLength.length ≤ 0 then "0" else req.uploadLength) with _ | lv
  · rw [hx] at hpost
    simp at hpost
  · simp only [postFiles, hx, Option.isNone_some, Bool.false_eq_true, if_false]
    split
    · simp [hasHeader, RespW.empty, RespW.set, RespW.writeHeader, RespW.response,
        any_setHeader_self]
    · split
      · simp [hasHeader, RespW.empty, RespW.set, RespW.writeHeader, RespW.response,
          any_setHeader_self]
      · split
        · split
          · simp [hasHeader, RespW.empty, RespW.set, RespW.writeHeader, RespW.response,
              any_setHeader_self]
          · simp [hasHeader, RespW.empty, RespW.set, RespW.writeHeader, RespW.response,
              any_setHeader_self]
        · simp [hasHeader, RespW.empty, RespW.set, RespW.writeHeader, RespW.response,
            any_setHeader_self]

theorem patch_fsOf_step (st : ServerState) (fid : String) (r : PatchRequest)
    (hclean : cleanBody r.body = true) :
    fsOf (patchFiles st fid r).1 fid =
      fsOf st fid ++
        (if (patchFiles st fid r).2.status = 204 then bodyBytes r.body else []) := by
  by_cases hct : r.contentType = CONTENT_TYPE_OFFSET_OCTET_STREAM
  case neg =>
    simp [patchFiles, hct, RespW.empty, RespW.set, RespW.writeHeader, RespW.response]
  case pos =>
    rcases hlk : lookupA st.storage fid with _ | file
    · simp [patchFiles, hct, hlk, RespW.empty, RespW.set, RespW.writeHeader, RespW.response]
    · rcases hoff : atoi (if r.uploadOffset.length ≤ 0 then "0" else r.uploadOffset)
        with _ | off
      all_goals simp only [Nat.le_zero] at hoff
      · simp [patchFiles, hct, hlk, hoff, RespW.empty, RespW.set, RespW.writeHeader,
          RespW.response]
      · by_cases hne : off = file.offset
        case neg =>
          simp [patchFiles, hct, hlk, hoff, hne, RespW.empty, RespW.set, RespW.writeHeader,
            RespW.response]
        case pos =>
          subst hne
          have hw := write_clean r.body file ((lookupA st.fs fid).getD []) hclean
          simp [patchFiles, hct, hlk, hoff, hw, fsOf, lookupA_insertA_self, RespW.empty,
            RespW.set, RespW.writeHeader, RespW.response]

theorem patch_conflict (st : ServerState) (fid : String) (req : PatchRequest)
    (file : File) (off : Int)
    (hct : req.contentType = CONTENT_TYPE_OFFSET_OCTET_STREAM)
    (hlk : lookupA st.storage fid = some file)
    (hoff : atoi (if req.uploadOffset.length = 0 then "0" else req.uploadOffset) = some off)
    (hne : off ≠ file.offset) :
    (patchFiles st fid req).2.status = 409 ∧ (patchFiles st fid req).1 = st := by
  simp [patchFiles, hct, hlk, hoff, hne, RespW.empty, RespW.set, RespW.writeHeader,
    RespW.response]

theorem patch_success (st : ServerState) (fid : String) (req : PatchRequest) (file : File)
    (hct : req.contentType = CONTENT_TYPE_OFFSET_OCTET_STREAM)
    (hlk : lookupA st.storage fid = some file)
    (hoff : atoi (if req.uploadOffset.length = 0 then "0" else req.uploadOffset)
      = some file.offset)
    (hclean : cleanBody req.body = true) :
    (patchFiles st fid req).2.status = 204 ∧
    lookupA (patchFiles st fid req).1.storage fid =
      some { id := file.id, size := file.size,
             offset := file.offset + ((bodyBytes req.body).length : Int),
             metadata := file.metadata } := by
  have hw := write_clean req.body file ((lookupA st.fs fid).getD []) hclean
  simp [patchFiles, hct, hlk, hoff, hw, fsOf, lookupA_insertA_self, RespW.empty,
    RespW.set, RespW.writeHeader, RespW.response]

/-- Claim C1: for every session and every append call (with the
offset-stream content type, an offset value that parses, and a session
present in the registry) whose expected offset differs from the session's
current offset, the handler answers 409 Conflict and neither the session's
offset nor the backing store's content is changed (the whole server state
is returned untouched). -/
theorem c1_offset_mismatch_conflict_no_mutation
    (st : ServerState) (fid : String) (req : PatchRequest) (file : File) (off : Int)
    (hct : req.contentType = CONTENT_TYPE_OFFSET_OCTET_STREAM)
    (hlk : lookupA st.storage fid = some file)
    (hoff : atoi (if req.uploadOffset.length ≤ 0 then "0" else req.uploadOffset) = some off)
    (hne : off ≠ file.offset) :
    (patchFiles st fid req).2.status = 409 ∧ (patchFiles st fid req).1 = st := by
  simp only [Nat.le_zero] at hoff
  exact patch_conflict st fid req file off hct hlk hoff hne

/-- Witness for C1 at a concrete input: session offset 3, expected offset
5, store holds three bytes: the call yields 409 and changes nothing. -/
theorem c1_offset_mismatch_witness :
    (patchFiles
        { storage := [("f1", { id := "f1", size := 100, offset := 3, metadata := "" })],
          fs := [("f1", [1, 2, 3])] } "f1"
        { contentType := CONTENT_TYPE_OFFSET_OCTET_STREAM, uploadOffset := "5",
          body := [] }).2.status = 409 ∧
    (patchFiles
        { storage := [("f1", { id := "f1", size := 100, offset := 3, metadata := "" })],
          fs := [("f1", [1, 2, 3])] } "f1"
        { contentType := CONTENT_TYPE_OFFSET_OCTET_STREAM, uploadOffset := "5",
          body := [] }).1 =
      { storage := [("f1", { id := "f1", size := 100, offset := 3, metadata := "" })],
        fs := [("f1", [1, 2, 3])] } :=
  c1_offset_mismatch_conflict_no_mutation _ _ _
    { id := "f1", size := 100, offset := 3, metadata := "" } 5
    rfl (by decide) (by decide) (by decide)

/-- Claim C2: after any run of the chunked writer, successful or aborted
mid-stream, the backing store grows by exactly the bytes that were
flushed, and the session's offset advances by exactly that number of
bytes: the offset always equals the bytes durably appended, and partial
progress is retained with no rollback. -/
theorem c2_offset_equals_bytes_appended (f : File) (store : List Nat)
    (evs : List ReadEvent) :
    ∃ app : List Nat,
      (File.write f store evs).1.2 = store ++ app ∧
      (File.write f store evs).1.1.offset = f.offset + (app.length : Int) :=
  write_shape evs f store

/-- Claim C3 (code bug): the source intends to reject metadata keys
containing non-ASCII characters (its comment says "validate key is ASCII
chars" and its error message formats the offender with a character verb),
but the loop ranges with a single variable, so it compares each rune's
starting BYTE INDEX with 127: a non-ASCII key such as "é" passes
validation, while a purely ASCII key of 130 characters is rejected at
index 128. -/
theorem c3_metadata_key_check_is_index_based :
    validateMetadata "é" = none ∧
    validateMetadata (String.mk (List.replicate 130 'a')) =
      some (MetaError.nonAsciiKey 128) := by
  exact ⟨by decide, by decide⟩

/-- Counterexample to claim C4 as stated: an append that fails mid-stream
(first chunk written, second chunk's write fails) leaves the flushed
prefix in the backing store, so the store no longer equals the
concatenation of the payloads of the successful appends (there are none). -/
theorem c4_partial_flush_counterexample :
    ¬ (fsOf
        (runPatches
          { storage := [("f1", { id := "f1", size := 10, offset := 0, metadata := "" })],
            fs := [("f1", [])] } "f1"
          [{ contentType := CONTENT_TYPE_OFFSET_OCTET_STREAM, uploadOffset := "",
             body := [ReadEvent.chunk [7] true, ReadEvent.chunk [8] false] }]) "f1" =
      fsOf
        { storage := [("f1", { id := "f1", size := 10, offset := 0, metadata := "" })],
          fs := [("f1", [])] } "f1" ++
        appendedBytes
          { storage := [("f1", { id := "f1", size := 10, offset := 0, metadata := "" })],
            fs := [("f1", [])] } "f1"
          [{ contentType := CONTENT_TYPE_OFFSET_OCTET_STREAM, uploadOffset := "",
             body := [ReadEvent.chunk [7] true, ReadEvent.chunk [8] false] }]) := by
  decide

/-- Claim C4, amended: over any sequence of append calls none of which
fails mid-stream (every chunk is read and written successfully; calls may
still be rejected without mutation for wrong content type, malformed or
mismatched offset), the session's backing store equals its initial
content followed by the concatenation of the payloads of the successful
appends in application order. -/
theorem c4_store_is_concat_of_successful_appends
    (st : ServerState) (fid : String) (reqs : List PatchRequest)
    (hclean : ∀ r ∈ reqs, cleanBody r.body = true) :
    fsOf (runPatches st fid reqs) fid = fsOf st fid ++ appendedBytes st fid reqs := by
  revert hclean
  induction reqs generalizing st with
  | nil =>
    intro _
    simp [runPatches, appendedBytes]
  | cons r rs ih =>
    intro hclean
    have hr := hclean r (List.mem_cons_self r rs)
    have hrs : ∀ x ∈ rs, cleanBody x.body = true :=
      fun x hx => hclean x (List.mem_cons_of_mem r hx)
    rw [runPatches, appendedBytes, ih _ hrs, patch_fsOf_step st fid r hr,
      List.append_assoc]

/-- Witness for C4 at a concrete input: two successful appends around a
conflicting one; the store ends as the concatenation of the two
successful payloads. -/
theorem c4_store_concat_witness :
    fsOf
      (runPatches
        { storage := [("f1", { id := "f1", size := 10, offset := 0, metadata := "" })],
          fs := [("f1", [])] } "f1"
        [{ contentType := CONTENT_TYPE_OFFSET_OCTET_STREAM, uploadOffset := "0",
           body := [ReadEvent.chunk [1, 2] true] },
         { contentType := CONTENT_TYPE_OFFSET_OCTET_STREAM, uploadOffset := "9",
           body := [ReadEvent.chunk [4] true] },
         { contentType := CONTENT_TYPE_OFFSET_OCTET_STREAM, uploadOffset := "2",
           body := [ReadEvent.chunk [3] true] }]) "f1" =
    fsOf
      { storage := [("f1", { id := "f1", size := 10, offset := 0, metadata := "" })],
        fs := [("f1", [])] } "f1" ++
      appendedBytes
        { storage := [("f1", { id := "f1", size := 10, offset := 0, metadata := "" })],
          fs := [("f1", [])] } "f1"
        [{ contentType := CONTENT_TYPE_OFFSET_OCTET_STREAM, uploadOffset := "0",
           body := [ReadEvent.chunk [1, 2] true] },
         { contentType := CONTENT_TYPE_OFFSET_OCTET_STREAM, uploadOffset := "9",
           body := [ReadEvent.chunk [4] true] },
         { contentType := CONTENT_TYPE_OFFSET_OCTET_STREAM, uploadOffset := "2",
           body := [ReadEvent.chunk [3] true] }] :=
  c4_store_is_concat_of_successful_appends _ _ _ (by decide)

/-- Claim C5: whenever create fails for one of the three specified
reasons — declared size above the configured maximum, invalid metadata,
or backing-store creation failure — the whole server state (registry and
stores) is exactly as it was before the call: no partial registration. -/
theorem c5_failed_create_registers_nothing
    (cfg : Config) (st : ServerState) (req : PostRequest) (newId : String)
    (uuidOk createOk : Bool)
    (h : MAX_SIZE <
          (atoi (if req.uploadLength.length ≤ 0 then "0" else req.uploadLength)).getD 0
        ∨ (validateMetadata req.metadata).isSome = true
        ∨ (uuidOk = true ∧ createOk = false)) :
    (postFiles cfg st req newId uuidOk createOk).1 = st := by
  rcases h with h1 | h2 | ⟨h3, h4⟩
  · simp only [postFiles]
    rw [if_pos h1]
  · rcases hm : validateMetadata req.metadata with _ | e
    · rw [hm] at h2
      simp at h2
    · simp only [postFiles]
      by_cases hmax : MAX_SIZE <
          (atoi (if req.uploadLength.length ≤ 0 then "0" else req.uploadLength)).getD 0
      · rw [if_pos hmax]
      · rw [if_neg hmax, hm]
  · subst h3
    subst h4
    rcases hm : validateMetadata req.metadata with _ | e
    all_goals
      simp only [postFiles]
      by_cases hmax : MAX_SIZE <
          (atoi (if req.uploadLength.length ≤ 0 then "0" else req.uploadLength)).getD 0
    · rw [if_pos hmax]
    · rw [if_neg hmax, hm]
      simp
    · rw [if_pos hmax]
    · rw [if_neg hmax, hm]

/-- Witness for C5 at a concrete input: a declared size of 2^30 + 1 bytes
against the 1 GiB maximum leaves the empty registry empty. -/
theorem c5_failed_create_witness :
    (postFiles { protocol := "http", host := "localhost", port := 0 }
        { storage := [], fs := [] }
        { uploadLength := "1073741825", metadata := "" } "id1" true true).1 =
      { storage := [], fs := [] } :=
  c5_failed_create_registers_nothing _ _ _ _ _ _ (Or.inl (by decide))

/-- Counterexample to claim C6 as stated: the status (HEAD) response for
an unknown identifier is a 404 with an empty header set, so it does not
carry the Tus-Resumable protocol version marker. -/
theorem c6_status_404_lacks_version_marker :
    (headFiles { storage := [], fs := [] } "x").status = 404 ∧
    hasHeader (headFiles { storage := [], fs := [] } "x")
      HEADER_TUS_RESUMABLE TUS_PROTOCOL_VERSION = false := by
  decide

/-- Claim C6, amended: the protocol version marker is present on every
capability-discovery response, on every create response whose declared
size parses (the malformed-size path commits a 411 status before any
header is set), on every status response for a known identifier (the 404
response carries no headers), and on every append response. -/
theorem c6_version_marker_on_responses
    (cfg : Config) (stc sth stp : ServerState) (reqc : PostRequest) (newId : String)
    (uuidOk createOk : Bool) (fidh fidp : String) (fileH : File) (reqp : PatchRequest)
    (hpost : (atoi (if reqc.uploadLength.length ≤ 0 then "0" else reqc.uploadLength)).isSome
      = true)
    (hhead : lookupA sth.storage fidh = some fileH) :
    hasHeader optionsFiles HEADER_TUS_RESUMABLE TUS_PROTOCOL_VERSION = true ∧
    hasHeader (postFiles cfg stc reqc newId uuidOk createOk).2
      HEADER_TUS_RESUMABLE TUS_PROTOCOL_VERSION = true ∧
    hasHeader (headFiles sth fidh) HEADER_TUS_RESUMABLE TUS_PROTOCOL_VERSION = true ∧
    hasHeader (patchFiles stp fidp reqp).2
      HEADER_TUS_RESUMABLE TUS_PROTOCOL_VERSION = true :=
  ⟨by decide, post_hasTus cfg stc reqc newId uuidOk createOk hpost,
   head_hasTus sth fidh fileH hhead, patch_hasTus stp fidp reqp⟩

/-- Witness for C6 at concrete inputs: one request of each kind, each
response carrying the version marker. -/
theorem c6_version_marker_witness :
    hasHeader optionsFiles HEADER_TUS_RESUMABLE TUS_PROTOCOL_VERSION = true ∧
    hasHeader (postFiles { protocol := "http", host := "localhost", port := 0 }
        { storage := [], fs := [] } { uploadLength := "10", metadata := "" }
        "n" true true).2 HEADER_TUS_RESUMABLE TUS_PROTOCOL_VERSION = true ∧
    hasHeader (headFiles
        { storage := [("a", { id := "a", size := 10, offset := 0, metadata := "" })],
          fs := [("a", [])] } "a") HEADER_TUS_RESUMABLE TUS_PROTOCOL_VERSION = true ∧
    hasHeader (patchFiles { storage := [], fs := [] } "z"
        { contentType := "", uploadOffset := "", body := [] }).2
      HEADER_TUS_RESUMABLE TUS_PROTOCOL_VERSION = true :=
  c6_version_marker_on_responses
    { protocol := "http", host := "localhost", port := 0 }
    { storage := [], fs := [] }
    { storage := [("a", { id := "a", size := 10, offset := 0, metadata := "" })],
      fs := [("a", [])] }
    { storage := [], fs := [] }
    { uploadLength := "10", metadata := "" } "n" true true "a" "z"
    { id := "a", size := 10, offset := 0, metadata := "" }
    { contentType := "", uploadOffset := "", body := [] }
    (by decide) (by decide)

/-- Claim C7: after a successful create (valid metadata, declared size
parsing and within the maximum, identifier and store allocation
succeeding) a status call on the returned identifier with no intervening
append answers 200 with offset 0 and exactly the metadata string that was
supplied, byte for byte (the empty string when none was supplied). -/
theorem c7_status_after_create_roundtrip
    (cfg : Config) (st : ServerState) (req : PostRequest) (newId : String)
    (hmeta : validateMetadata req.metadata = none)
    (hparse : (atoi (if req.uploadLength.length ≤ 0 then "0" else req.uploadLength)).isSome
      = true)
    (hsize : (atoi (if req.uploadLength.length ≤ 0 then "0" else req.uploadLength)).getD 0
      ≤ MAX_SIZE) :
    (postFiles cfg st req newId true true).2.status = 201 ∧
    headFiles (postFiles cfg st req newId true true).1 newId =
      { status := 200,
        headers := [(HEADER_TUS_RESUMABLE, TUS_PROTOCOL_VERSION),
                    (HEADER_UPLOAD_OFFSET, "0"),
                    (HEADER_UPLOAD_METADATA, req.metadata)] } := by
  rcases hp : atoi (if req.uploadLength.length ≤ 0 then "0" else req.uploadLength)
    with _ | lv
  · rw [hp] at hparse
    simp at hparse
  · rw [hp] at hsize
    simp only [Option.getD_some] at hsize
    have hne1 : HEADER_TUS_RESUMABLE ≠ HEADER_UPLOAD_OFFSET := by decide
    have hne2 : HEADER_TUS_RESUMABLE ≠ HEADER_UPLOAD_METADATA := by decide
    have hne3 : HEADER_UPLOAD_OFFSET ≠ HEADER_UPLOAD_METADATA := by decide
    have hz : itoa 0 = "0" := by decide
    simp only [postFiles, hp, Option.getD_some, Option.isNone_some, Bool.false_eq_true,
      if_false]
    rw [if_neg (not_lt.mpr hsize), hmeta]
    constructor
    · simp [RespW.empty, RespW.set, RespW.writeHeader, RespW.response]
    · simp [headFiles, lookupA_insertA_self, RespW.empty, RespW.set, RespW.writeHeader,
        RespW.response, setHeader, hne1, hne2, hne3, hz]

/-- Witness for C7 at a concrete input: create with declared size 100 and
metadata string "m", then status: 200, offset 0, metadata "m". -/
theorem c7_status_after_create_witness :
    (postFiles { protocol := "http", host := "localhost", port := 1080 }
        { storage := [], fs := [] } { uploadLength := "100", metadata := "m" }
        "n" true true).2.status = 201 ∧
    headFiles (postFiles { protocol := "http", host := "localhost", port := 1080 }
        { storage := [], fs := [] } { uploadLength := "100", metadata := "m" }
        "n" true true).1 "n" =
      { status := 200,
        headers := [(HEADER_TUS_RESUMABLE, TUS_PROTOCOL_VERSION),
                    (HEADER_UPLOAD_OFFSET, "0"),
                    (HEADER_UPLOAD_METADATA, "m")] } :=
  c7_status_after_create_roundtrip _ _ _ _ (by decide) (by decide) (by decide)

/-- Claim C8: the append handler never compares the payload length or the
resulting offset against the session's declared size: with the right
content type, a matching expected offset and a clean stream, the append
succeeds and advances the stored offset by exactly the payload length,
with no hypothesis at all on the session's size field. -/
theorem c8_append_ignores_declared_size
    (st : ServerState) (fid : String) (req : PatchRequest) (file : File)
    (hct : req.contentType = CONTENT_TYPE_OFFSET_OCTET_STREAM)
    (hlk : lookupA st.storage fid = some file)
    (hoff : atoi (if req.uploadOffset.length ≤ 0 then "0" else req.uploadOffset)
      = some file.offset)
    (hclean : cleanBody req.body = true) :
    (patchFiles st fid req).2.status = 204 ∧
    lookupA (patchFiles st fid req).1.storage fid =
      some { id := file.id, size := file.size,
             offset := file.offset + ((bodyBytes req.body).length : Int),
             metadata := file.metadata } := by
  simp only [Nat.le_zero] at hoff
  exact patch_success st fid req file hct hlk hoff hclean

/-- Witness for C8 at a concrete input: a session with declared size 1
accepts a 3-byte append and ends at offset 3, past its declared size. -/
theorem c8_append_ignores_declared_size_witness :
    (1 : Int) < 3 ∧
    ((patchFiles
        { storage := [("f1", { id := "f1", size := 1, offset := 0, metadata := "" })],
          fs := [("f1", [])] } "f1"
        { contentType := CONTENT_TYPE_OFFSET_OCTET_STREAM, uploadOffset := "0",
          body := [ReadEvent.chunk [9, 9, 9] true] }).2.status = 204 ∧
     lookupA (patchFiles
        { storage := [("f1", { id := "f1", size := 1, offset := 0, metadata := "" })],
          fs := [("f1", [])] } "f1"
        { contentType := CONTENT_TYPE_OFFSET_OCTET_STREAM, uploadOffset := "0",
          body := [ReadEvent.chunk [9, 9, 9] true] }).1.storage "f1" =
       some { id := "f1", size := 1,
              offset := (0 : Int) + (([9, 9, 9] ++ ([] : List Nat)).length : Int),
              metadata := "" }) :=
  ⟨by decide,
   c8_append_ignores_declared_size _ _ _
     { id := "f1", size := 1, offset := 0, metadata := "" }
     rfl (by decide) (by decide) (by decide)⟩

/-- Counterexample to claim C9 as stated: on a non-numeric declared size
the handler commits the 411 status with an empty header map, so the
success headers it sets afterwards (Location, Tus-Resumable) are NOT
emitted on the response, contrary to the claim's final clause. -/
theorem c9_success_headers_not_emitted :
    (postFiles { protocol := "http", host := "localhost", port := 0 }
        { storage := [], fs := [] } { uploadLength := "abc", metadata := "" }
        "id1" true true).2.status = 411 ∧
    (postFiles { protocol := "http", host := "localhost", port := 0 }
        { storage := [], fs := [] } { uploadLength := "abc", metadata := "" }
        "id1" true true).2.headers = [] := by
  decide

/-- Claim C9, amended: on a non-numeric declared size the handler records
a 411 Length Required status but does not abort: it continues, creates a
backing store, and registers a session with declared size 0; the success
headers set afterwards are not emitted, because the 411 status was
already committed with an empty header map, so the response is a bare
411. -/
theorem c9_malformed_length_registers_default_session
    (cfg : Config) (st : ServerState) (req : PostRequest) (newId : String)
    (hne : req.uploadLength ≠ "")
    (hbad : atoi req.uploadLength = none)
    (hmeta : validateMetadata req.metadata = none) :
    (postFiles cfg st req newId true true).2 = { status := 411, headers := [] } ∧
    (postFiles cfg st req newId true true).1 =
      { storage := insertA st.storage newId
          { id := newId, size := 0, offset := 0, metadata := req.metadata },
        fs := insertA st.fs newId [] } := by
  have hlen : ¬ (req.uploadLength.length ≤ 0) := by
    simp only [Nat.le_zero]
    intro h0
    exact hne (String.ext (List.length_eq_zero.mp h0))
  have hmax : ¬ ((Option.getD (none : Option Int) 0) > MAX_SIZE) := by decide
  simp only [postFiles]
  rw [if_neg hlen, hbad, if_neg hmax, hmeta]
  constructor
  · simp [RespW.empty, RespW.set, RespW.writeHeader, RespW.response]
  · simp

/-- Witness for C9 at a concrete input: declared size "abc" produces a
bare 411 response while registering a session of size 0 with an empty
store. -/
theorem c9_malformed_length_witness :
    (postFiles { protocol := "http", host := "localhost", port := 0 }
        { storage := [], fs := [] } { uploadLength := "abc", metadata := "k" }
        "id1" true true).2 = { status := 411, headers := [] } ∧
    (postFiles { protocol := "http", host := "localhost", port := 0 }
        { storage := [], fs := [] } { uploadLength := "abc", metadata := "k" }
        "id1" true true).1 =
      { storage := insertA [] "id1" { id := "id1", size := 0, offset := 0, metadata := "k" },
        fs := insertA [] "id1" [] } :=
  c9_malformed_length_registers_default_session _ _ _ _
    (by decide) (by decide) (by decide)

/-- Claim C10: an append request carrying no expected-offset value at all
is treated as expected offset 0 rather than rejected as malformed: with
the right content type and a clean stream it succeeds (204) on a session
whose offset is 0, and yields 409 Conflict on any session whose offset is
nonzero. -/
theorem c10_missing_offset_defaults_to_zero
    (st : ServerState) (fid : String) (req : PatchRequest) (file : File)
    (hct : req.contentType = CONTENT_TYPE_OFFSET_OCTET_STREAM)
    (hlk : lookupA st.storage fid = some file)
    (habs : req.uploadOffset = "")
    (hclean : cleanBody req.body = true) :
    (file.offset = 0 → (patchFiles st fid req).2.status = 204) ∧
    (file.offset ≠ 0 → (patchFiles st fid req).2.status = 409) := by
  constructor
  · intro h0
    have hoff : atoi (if req.uploadOffset.length = 0 then "0" else req.uploadOffset)
        = some file.offset := by
      rw [habs, h0]
      decide
    exact (patch_success st fid req file hct hlk hoff hclean).1
  · intro hne0
    have hoff : atoi (if req.uploadOffset.length = 0 then "0" else req.uploadOffset)
        = some 0 := by
      rw [habs]
      decide
    exact (patch_conflict st fid req file 0 hct hlk hoff (Ne.symm hne0)).1

/-- Witness for C10 at concrete inputs: with no Upload-Offset header the
same request succeeds on a fresh session (offset 0) and conflicts on a
session already at offset 2. -/
theorem c10_missing_offset_witness :
    (patchFiles
        { storage := [("f1", { id := "f1", size := 10, offset := 0, metadata := "" })],
          fs := [("f1", [])] } "f1"
        { contentType := CONTENT_TYPE_OFFSET_OCTET_STREAM, uploadOffset := "",
          body := [ReadEvent.chunk [1] true] }).2.status = 204 ∧
    (patchFiles
        { storage := [("f1", { id := "f1", size := 10, offset := 2, metadata := "" })],
          fs := [("f1", [1, 2])] } "f1"
        { contentType := CONTENT_TYPE_OFFSET_OCTET_STREAM, uploadOffset := "",
          body := [ReadEvent.chunk [1] true] }).2.status = 409 :=
  ⟨(c10_missing_offset_defaults_to_zero _ _ _
      { id := "f1", size := 10, offset := 0, metadata := "" }
      rfl (by decide) rfl (by decide)).1 rfl,
   (c10_missing_offset_defaults_to_zero _ _ _
      { id := "f1", size := 10, offset := 2, metadata := "" }
      rfl (by decide) rfl (by decide)).2 (by decide)⟩

end Tus
